import Mathlib

/-!
Verification of the drf_common_exceptions package: a shallow embedding of
`src/drf_common_exceptions/utils.py` (flatten_errors,
get_configured_base_exception_class) and
`src/drf_common_exceptions/handlers.py` (custom_exception_handler),
with theorems settling the frozen claims about the spec.

Modelling conventions:
- Python error-message structures (lists, dicts, leaf values) become the
  inductive `ErrorTree α`; a leaf carries an abstract value of type `α`
  together with its `str()` rendering `pyStr : α → String`.  The source's
  `ErrorDetail` branch and the generic `else` branch of `extract_messages`
  both return `[str(data)]`, so a single leaf case models both.
- `settings` becomes the `Settings` structure (`CUSTOM_BASE_EXCEPTION`
  as `Option String`, `DEBUG` as `Bool`).  Python truthiness of the path
  (`if not path`) is `Option.isNone` or emptiness of the string.
- The dynamic `import_module` / `getattr` step is outside this repository;
  it is an abstract parameter `imp : String → String → Except String κ`
  (success returns a class of abstract type `κ`, failure carries the
  exception text).  `path.rsplit(".", 1)` with its possible ValueError is
  modelled exactly by `rsplitDot`.
- The exception value `exc` becomes the structure `Exc α κ` recording the
  attributes the handler reads and the outcome of each `isinstance` test.
- DRF's default `exception_handler(exc, context)` is an external
  collaborator; its result for this call is the parameter
  `drf_response : Option (ErrorTree α × Nat)` (data and status code).
- `str(uuid.uuid4())` and `traceback.format_exc()` are external; they are
  the parameters `fresh_uuid` and `trace`.
- Logging becomes an explicit list of `LogEntry` values in the result;
  the handler returns `Option HandlerResult`, `none` modelling the Python
  function falling off the end and returning `None`.
-/

/-- Nested error-message structure: a leaf value, an ordered sequence, or a
mapping from field name to subtree (the ErrorMessageTree of the spec). -/
inductive ErrorTree (α : Type) where
  | leaf (v : α)
  | seq (items : List (ErrorTree α))
  | map (entries : List (String × ErrorTree α))

/-- The inner `extract_messages` closure of `flatten_errors` in
`utils.py`: lists and dict values are flattened recursively in order
(`messages.extend(...)` is concatenation), everything else is a leaf
contributing `[str(data)]`. -/
def extract_messages {α : Type} (pyStr : α → String) : ErrorTree α → List String
  | .leaf v => [pyStr v]
  | .seq [] => []
  | .seq (t :: ts) => extract_messages pyStr t ++ extract_messages pyStr (.seq ts)
  | .map [] => []
  | .map ((_, t) :: rest) => extract_messages pyStr t ++ extract_messages pyStr (.map rest)

/-- The function `flatten_errors` of `utils.py`: it just runs
`extract_messages` on its argument. -/
def flatten_errors {α : Type} (pyStr : α → String) (error_data : ErrorTree α) : List String :=
  extract_messages pyStr error_data

/-- The leaf values of an ErrorTree in depth-first, left-to-right order
(dict keys discarded).  Specification-side notion used to state the
counting and ordering claims about `flatten_errors`. -/
def leaves {α : Type} : ErrorTree α → List α
  | .leaf v => [v]
  | .seq [] => []
  | .seq (t :: ts) => leaves t ++ leaves (.seq ts)
  | .map [] => []
  | .map ((_, t) :: rest) => leaves t ++ leaves (.map rest)

/-- A leveled log record emitted through the module loggers. -/
inductive LogEntry where
  | warning (msg : String)
  | error (msg : String)
deriving DecidableEq

/-- The Django settings object, restricted to the two attributes the
package reads: `CUSTOM_BASE_EXCEPTION` (absent modelled as `none`) and
`DEBUG`. -/
structure Settings where
  CUSTOM_BASE_EXCEPTION : Option String
  DEBUG : Bool

/-- Python `path.rsplit(".", 1)` followed by unpacking into two names:
`some (before, after)` splits at the last dot; `none` models the
ValueError raised when the string has no dot. -/
def rsplitDot (s : String) : Option (String × String) :=
  let cs := s.toList
  if cs.contains '.' then
    let rev := cs.reverse
    let afterRev := rev.takeWhile (fun c => c ≠ '.')
    let beforeRev := (rev.dropWhile (fun c => c ≠ '.')).tail
    some (String.mk beforeRev.reverse, String.mk afterRev.reverse)
  else
    none

/-- Body of the `try` block of `get_configured_base_exception_class`:
split the path at its last dot (ValueError when there is none), then load
the module and read the attribute.  `imp m c` models
`getattr(import_module(m), c)`, which may raise; any raise is an
`Except.error` carrying the exception text. -/
def resolveAttempt {κ : Type} (imp : String → String → Except String κ)
    (path : String) : Except String κ :=
  match rsplitDot path with
  | none => Except.error "ValueError: not enough values to unpack"
  | some (module_path, class_name) => imp module_path class_name

/-- The function `get_configured_base_exception_class` of `utils.py`.
Any exception inside the `try` block is caught by the blanket
`except Exception` clause, logged as a warning and turned into `None`.
Returns the resolved class (or `none`) together with the warnings
logged. -/
def get_configured_base_exception_class {κ : Type}
    (imp : String → String → Except String κ) (s : Settings) :
    Option κ × List LogEntry :=
  match s.CUSTOM_BASE_EXCEPTION with
  | none => (none, [])
  | some path =>
    if path.isEmpty then
      (none, [])
    else
      match resolveAttempt imp path with
      | Except.ok cls => (some cls, [])
      | Except.error e =>
        (none,
         [LogEntry.warning
            ("Could not import CUSTOM_BASE_EXCEPTION: \"" ++ path ++ "\": " ++ e)])

/-- The standardized error payload dict built by the handler; `code` and
`error_id` are `none` when the corresponding key is absent. -/
structure Payload where
  status : Bool
  message : List String
  code : Option String
  error_id : Option String
deriving DecidableEq

/-- A returned DRF Response: payload, HTTP status code, plus the log
entries emitted on the way (the only other observable side effect). -/
structure HandlerResult where
  payload : Payload
  status_code : Nat
  logs : List LogEntry
deriving DecidableEq

/-- The exception value entering `custom_exception_handler`, recording the
attributes the handler reads and the outcome of each `isinstance` test.
`data` and `status_code` are `exc.data` / `exc.status_code` (read when
`exc` is a Response, and `status_code` again for the configured base
exception); `message`, `code`, `status_code` are the base-exception
attributes; `instOf cls` is `isinstance(exc, cls)` for a resolved class
`cls`; `str` is `str(exc)`. -/
structure Exc (α κ : Type) where
  isResponse : Bool
  data : ErrorTree α
  status_code : Nat
  message : String
  code : String
  instOf : κ → Bool
  isDjangoValidationError : Bool
  isObjectDoesNotExist : Bool
  isIntegrityError : Bool
  str : String

/-- The generic message text of the non-DEBUG unclassified branch. -/
def genericMessage (error_id : String) : String :=
  "Something went wrong. Please share this error ID with support: " ++ error_id

/-- The function `custom_exception_handler` of `handlers.py`, as an
ordered decision chain.  Rules in source order: (1) manual Response
passthrough, (2) DRF default handler result re-wrap, (3) configured
application base exception, (4) Django ValidationError, (5)
ObjectDoesNotExist, (6) IntegrityError, (7) the `if not response` guard
for unhandled exceptions.  Returns `none` exactly when the Python
function would fall off the end and return `None`. -/
def custom_exception_handler {α κ : Type} (s : Settings)
    (imp : String → String → Except String κ)
    (drf_response : Option (ErrorTree α × Nat)) (pyStr : α → String)
    (fresh_uuid : String) (trace : String) (exc : Exc α κ) :
    Option HandlerResult :=
  if exc.isResponse then
    some ⟨⟨false, flatten_errors pyStr exc.data, none, none⟩, exc.status_code, []⟩
  else
    match drf_response with
    | some (dat, st) =>
      some ⟨⟨false, flatten_errors pyStr dat, none, none⟩, st, []⟩
    | none =>
      let b := get_configured_base_exception_class imp s
      let post : Option HandlerResult :=
        if exc.isDjangoValidationError then
          some ⟨⟨false, [exc.str], none, none⟩, 400, b.2⟩
        else if exc.isObjectDoesNotExist then
          some ⟨⟨false, ["Requested object not found."], none, none⟩, 404, b.2⟩
        else if exc.isIntegrityError then
          some ⟨⟨false, ["Database integrity error."], none, none⟩, 400, b.2⟩
        else if drf_response.isNone then
          let message : List String :=
            if s.DEBUG then
              ["Error ID: " ++ fresh_uuid, trace]
            else
              [genericMessage fresh_uuid]
          some ⟨⟨false, message, none, some fresh_uuid⟩, 500,
                b.2 ++ [LogEntry.error ("[Error ID: " ++ fresh_uuid ++ "] Unhandled exception")]⟩
        else
          none
      match b.1 with
      | some cls =>
        if exc.instOf cls then
          some ⟨⟨false, [exc.message], some exc.code, none⟩, exc.status_code,
                b.2 ++ [LogEntry.warning
                  ("Project Base Exception: " ++ exc.message ++ " (Code: " ++ exc.code ++ ")")]⟩
        else
          post
      | none => post

theorem extract_messages_eq_map_leaves {α : Type} (pyStr : α → String) (t : ErrorTree α) :
    extract_messages pyStr t = (leaves t).map pyStr := by
  induction t using extract_messages.induct pyStr with
  | case1 v => simp [extract_messages, leaves]
  | case2 => simp [extract_messages, leaves]
  | case3 t ts ih1 ih2 => simp [extract_messages, leaves, ih1, ih2]
  | case4 => simp [extract_messages, leaves]
  | case5 k t rest ih1 ih2 => simp [extract_messages, leaves, ih1, ih2]

theorem handler_rule1 {α κ : Type} (s : Settings) (imp : String → String → Except String κ)
    (drf_response : Option (ErrorTree α × Nat)) (pyStr : α → String)
    (fresh_uuid trace : String) (exc : Exc α κ) (h : exc.isResponse = true) :
    custom_exception_handler s imp drf_response pyStr fresh_uuid trace exc =
      some ⟨⟨false, flatten_errors pyStr exc.data, none, none⟩, exc.status_code, []⟩ := by
  simp [custom_exception_handler, h]

theorem handler_rule2 {α κ : Type} (s : Settings) (imp : String → String → Except String κ)
    (dat : ErrorTree α) (st : Nat) (pyStr : α → String)
    (fresh_uuid trace : String) (exc : Exc α κ) (h : exc.isResponse = false) :
    custom_exception_handler s imp (some (dat, st)) pyStr fresh_uuid trace exc =
      some ⟨⟨false, flatten_errors pyStr dat, none, none⟩, st, []⟩ := by
  simp [custom_exception_handler, h]

theorem handler_rule3 {α κ : Type} (s : Settings) (imp : String → String → Except String κ)
    (pyStr : α → String) (fresh_uuid trace : String) (exc : Exc α κ) (cls : κ)
    (h1 : exc.isResponse = false)
    (hb : (get_configured_base_exception_class imp s).1 = some cls)
    (hi : exc.instOf cls = true) :
    custom_exception_handler s imp none pyStr fresh_uuid trace exc =
      some ⟨⟨false, [exc.message], some exc.code, none⟩, exc.status_code,
            (get_configured_base_exception_class imp s).2 ++
              [LogEntry.warning
                ("Project Base Exception: " ++ exc.message ++ " (Code: " ++ exc.code ++ ")")]⟩ := by
  simp [custom_exception_handler, h1, hb, hi]

/-- Rule 3 does not fire: either no base class resolves, or the exception
is not an instance of the resolved class. -/
def rule3Misses {α κ : Type} (imp : String → String → Except String κ)
    (s : Settings) (exc : Exc α κ) : Prop :=
  ∀ cls : κ, (get_configured_base_exception_class imp s).1 = some cls →
    exc.instOf cls = false

theorem handler_rule4 {α κ : Type} (s : Settings) (imp : String → String → Except String κ)
    (pyStr : α → String) (fresh_uuid trace : String) (exc : Exc α κ)
    (h1 : exc.isResponse = false)
    (h3 : rule3Misses imp s exc)
    (h4 : exc.isDjangoValidationError = true) :
    custom_exception_handler s imp none pyStr fresh_uuid trace exc =
      some ⟨⟨false, [exc.str], none, none⟩, 400,
            (get_configured_base_exception_class imp s).2⟩ := by
  cases hb : (get_configured_base_exception_class imp s).1 with
  | none => simp [custom_exception_handler, h1, hb, h4]
  | some cls => simp [custom_exception_handler, h1, hb, h3 cls hb, h4]

theorem handler_rule5 {α κ : Type} (s : Settings) (imp : String → String → Except String κ)
    (pyStr : α → String) (fresh_uuid trace : String) (exc : Exc α κ)
    (h1 : exc.isResponse = false)
    (h3 : rule3Misses imp s exc)
    (h4 : exc.isDjangoValidationError = false)
    (h5 : exc.isObjectDoesNotExist = true) :
    custom_exception_handler s imp none pyStr fresh_uuid trace exc =
      some ⟨⟨false, ["Requested object not found."], none, none⟩, 404,
            (get_configured_base_exception_class imp s).2⟩ := by
  cases hb : (get_configured_base_exception_class imp s).1 with
  | none => simp [custom_exception_handler, h1, hb, h4, h5]
  | some cls => simp [custom_exception_handler, h1, hb, h3 cls hb, h4, h5]

theorem handler_rule6 {α κ : Type} (s : Settings) (imp : String → String → Except String κ)
    (pyStr : α → String) (fresh_uuid trace : String) (exc : Exc α κ)
    (h1 : exc.isResponse = false)
    (h3 : rule3Misses imp s exc)
    (h4 : exc.isDjangoValidationError = false)
    (h5 : exc.isObjectDoesNotExist = false)
    (h6 : exc.isIntegrityError = true) :
    custom_exception_handler s imp none pyStr fresh_uuid trace exc =
      some ⟨⟨false, ["Database integrity error."], none, none⟩, 400,
            (get_configured_base_exception_class imp s).2⟩ := by
  cases hb : (get_configured_base_exception_class imp s).1 with
  | none => simp [custom_exception_handler, h1, hb, h4, h5, h6]
  | some cls => simp [custom_exception_handler, h1, hb, h3 cls hb, h4, h5, h6]

theorem handler_rule7 {α κ : Type} (s : Settings) (imp : String → String → Except String κ)
    (pyStr : α → String) (fresh_uuid trace : String) (exc : Exc α κ)
    (h1 : exc.isResponse = false)
    (h3 : rule3Misses imp s exc)
    (h4 : exc.isDjangoValidationError = false)
    (h5 : exc.isObjectDoesNotExist = false)
    (h6 : exc.isIntegrityError = false) :
    custom_exception_handler s imp none pyStr fresh_uuid trace exc =
      some ⟨⟨false,
             (if s.DEBUG then ["Error ID: " ++ fresh_uuid, trace]
              else [genericMessage fresh_uuid]),
             none, some fresh_uuid⟩, 500,
            (get_configured_base_exception_class imp s).2 ++
              [LogEntry.error ("[Error ID: " ++ fresh_uuid ++ "] Unhandled exception")]⟩ := by
  cases hb : (get_configured_base_exception_class imp s).1 with
  | none => simp [custom_exception_handler, h1, hb, h4, h5, h6]
  | some cls => simp [custom_exception_handler, h1, hb, h3 cls hb, h4, h5, h6]

theorem resolution_success_no_warning {κ : Type}
    (imp : String → String → Except String κ) (s : Settings) (cls : κ)
    (h : (get_configured_base_exception_class imp s).1 = some cls) :
    get_configured_base_exception_class imp s = (some cls, []) := by
  cases hp : s.CUSTOM_BASE_EXCEPTION with
  | none => simp [get_configured_base_exception_class, hp] at h
  | some path =>
    by_cases he : path.isEmpty
    · simp [get_configured_base_exception_class, hp, he] at h
    · cases ha : resolveAttempt imp path with
      | ok c =>
        simp [get_configured_base_exception_class, hp, he, ha] at h
        simp [get_configured_base_exception_class, hp, he, ha, h]
      | error e => simp [get_configured_base_exception_class, hp, he, ha] at h

theorem resolution_logs_warnings {κ : Type}
    (imp : String → String → Except String κ) (s : Settings) :
    ∀ entry ∈ (get_configured_base_exception_class imp s).2,
      ∃ m, entry = LogEntry.warning m := by
  cases hp : s.CUSTOM_BASE_EXCEPTION with
  | none => simp [get_configured_base_exception_class, hp]
  | some path =>
    by_cases he : path.isEmpty
    · simp [get_configured_base_exception_class, hp, he]
    · cases ha : resolveAttempt imp path with
      | ok c => simp [get_configured_base_exception_class, hp, he, ha]
      | error e => simp [get_configured_base_exception_class, hp, he, ha]

theorem handler_trace_independent {α κ : Type} (s : Settings)
    (imp : String → String → Except String κ)
    (drf_response : Option (ErrorTree α × Nat)) (pyStr : α → String)
    (fresh_uuid trace' trace : String) (exc : Exc α κ)
    (hD : s.DEBUG = false) :
    custom_exception_handler s imp drf_response pyStr fresh_uuid trace' exc =
      custom_exception_handler s imp drf_response pyStr fresh_uuid trace exc := by
  simp [custom_exception_handler, hD]

theorem handler_total_of_miss {α κ : Type} (s : Settings)
    (imp : String → String → Except String κ) (pyStr : α → String)
    (fresh_uuid trace : String) (exc : Exc α κ)
    (h1 : exc.isResponse = false) (h3 : rule3Misses imp s exc) :
    (custom_exception_handler s imp none pyStr fresh_uuid trace exc).isSome = true := by
  cases h4 : exc.isDjangoValidationError with
  | true => rw [handler_rule4 s imp pyStr fresh_uuid trace exc h1 h3 h4]; rfl
  | false =>
    cases h5 : exc.isObjectDoesNotExist with
    | true => rw [handler_rule5 s imp pyStr fresh_uuid trace exc h1 h3 h4 h5]; rfl
    | false =>
      cases h6 : exc.isIntegrityError with
      | true => rw [handler_rule6 s imp pyStr fresh_uuid trace exc h1 h3 h4 h5 h6]; rfl
      | false => rw [handler_rule7 s imp pyStr fresh_uuid trace exc h1 h3 h4 h5 h6]; rfl

theorem rule3Misses_of_none {α κ : Type} {s : Settings}
    {imp : String → String → Except String κ} (exc : Exc α κ)
    (hb : (get_configured_base_exception_class imp s).1 = none) :
    rule3Misses imp s exc := by
  intro cls hc
  rw [hb] at hc
  exact absurd hc (by simp)

theorem rule3Misses_of_notInst {α κ : Type} {s : Settings}
    {imp : String → String → Except String κ} {cls : κ} (exc : Exc α κ)
    (hb : (get_configured_base_exception_class imp s).1 = some cls)
    (hi : exc.instOf cls = false) :
    rule3Misses imp s exc := by
  intro c hc
  rw [hb] at hc
  injection hc with h
  rw [← h]
  exact hi

/-- Every possible outcome of the decision chain: whenever the handler
returns a response, it is the payload of exactly one of the seven rules. -/
theorem handler_cases {α κ : Type} (s : Settings)
    (imp : String → String → Except String κ)
    (drf_response : Option (ErrorTree α × Nat)) (pyStr : α → String)
    (fresh_uuid trace : String) (exc : Exc α κ) (r : HandlerResult)
    (hr : custom_exception_handler s imp drf_response pyStr fresh_uuid trace exc = some r) :
    (exc.isResponse = true ∧
      r = ⟨⟨false, flatten_errors pyStr exc.data, none, none⟩, exc.status_code, []⟩) ∨
    (∃ dat st, drf_response = some (dat, st) ∧
      r = ⟨⟨false, flatten_errors pyStr dat, none, none⟩, st, []⟩) ∨
    (∃ cls, (get_configured_base_exception_class imp s).1 = some cls ∧
      exc.instOf cls = true ∧
      r = ⟨⟨false, [exc.message], some exc.code, none⟩, exc.status_code,
           (get_configured_base_exception_class imp s).2 ++
             [LogEntry.warning
               ("Project Base Exception: " ++ exc.message ++ " (Code: " ++ exc.code ++ ")")]⟩) ∨
    (r = ⟨⟨false, [exc.str], none, none⟩, 400,
          (get_configured_base_exception_class imp s).2⟩) ∨
    (r = ⟨⟨false, ["Requested object not found."], none, none⟩, 404,
          (get_configured_base_exception_class imp s).2⟩) ∨
    (r = ⟨⟨false, ["Database integrity error."], none, none⟩, 400,
          (get_configured_base_exception_class imp s).2⟩) ∨
    (r = ⟨⟨false,
           (if s.DEBUG then ["Error ID: " ++ fresh_uuid, trace]
            else [genericMessage fresh_uuid]),
           none, some fresh_uuid⟩, 500,
          (get_configured_base_exception_class imp s).2 ++
            [LogEntry.error ("[Error ID: " ++ fresh_uuid ++ "] Unhandled exception")]⟩) := by
  cases hR : exc.isResponse with
  | true =>
    rw [handler_rule1 s imp drf_response pyStr fresh_uuid trace exc hR] at hr
    injection hr with h
    exact Or.inl ⟨rfl, h.symm⟩
  | false =>
    cases drf_response with
    | some p =>
      obtain ⟨dat, st⟩ := p
      rw [handler_rule2 s imp dat st pyStr fresh_uuid trace exc hR] at hr
      injection hr with h
      exact Or.inr (Or.inl ⟨dat, st, rfl, h.symm⟩)
    | none =>
      have hmiss : rule3Misses imp s exc →
          (r = ⟨⟨false, [exc.str], none, none⟩, 400,
                (get_configured_base_exception_class imp s).2⟩) ∨
          (r = ⟨⟨false, ["Requested object not found."], none, none⟩, 404,
                (get_configured_base_exception_class imp s).2⟩) ∨
          (r = ⟨⟨false, ["Database integrity error."], none, none⟩, 400,
                (get_configured_base_exception_class imp s).2⟩) ∨
          (r = ⟨⟨false,
                 (if s.DEBUG then ["Error ID: " ++ fresh_uuid, trace]
                  else [genericMessage fresh_uuid]),
                 none, some fresh_uuid⟩, 500,
                (get_configured_base_exception_class imp s).2 ++
                  [LogEntry.error ("[Error ID: " ++ fresh_uuid ++ "] Unhandled exception")]⟩) := by
        intro h3
        cases h4 : exc.isDjangoValidationError with
        | true =>
          rw [handler_rule4 s imp pyStr fresh_uuid trace exc hR h3 h4] at hr
          injection hr with h
          exact Or.inl h.symm
        | false =>
          cases h5 : exc.isObjectDoesNotExist with
          | true =>
            rw [handler_rule5 s imp pyStr fresh_uuid trace exc hR h3 h4 h5] at hr
            injection hr with h
            exact Or.inr (Or.inl h.symm)
          | false =>
            cases h6 : exc.isIntegrityError with
            | true =>
              rw [handler_rule6 s imp pyStr fresh_uuid trace exc hR h3 h4 h5 h6] at hr
              injection hr with h
              exact Or.inr (Or.inr (Or.inl h.symm))
            | false =>
              rw [handler_rule7 s imp pyStr fresh_uuid trace exc hR h3 h4 h5 h6] at hr
              injection hr with h
              exact Or.inr (Or.inr (Or.inr h.symm))
      cases hb : (get_configured_base_exception_class imp s).1 with
      | some cls =>
        cases hi : exc.instOf cls with
        | true =>
          rw [handler_rule3 s imp pyStr fresh_uuid trace exc cls hR hb hi] at hr
          injection hr with h
          exact Or.inr (Or.inr (Or.inl ⟨cls, rfl, hi, h.symm⟩))
        | false =>
          rcases hmiss (rule3Misses_of_notInst exc hb hi) with h | h | h | h
          · exact Or.inr (Or.inr (Or.inr (Or.inl h)))
          · exact Or.inr (Or.inr (Or.inr (Or.inr (Or.inl h))))
          · exact Or.inr (Or.inr (Or.inr (Or.inr (Or.inr (Or.inl h)))))
          · exact Or.inr (Or.inr (Or.inr (Or.inr (Or.inr (Or.inr h)))))
      | none =>
        rcases hmiss (rule3Misses_of_none exc hb) with h | h | h | h
        · exact Or.inr (Or.inr (Or.inr (Or.inl h)))
        · exact Or.inr (Or.inr (Or.inr (Or.inr (Or.inl h))))
        · exact Or.inr (Or.inr (Or.inr (Or.inr (Or.inr (Or.inl h)))))
        · exact Or.inr (Or.inr (Or.inr (Or.inr (Or.inr (Or.inr h)))))

/-- Concrete import resolver modelling a deployment where every import
attempt raises (nonexistent module). -/
def impFail : String → String → Except String Unit :=
  fun _ _ => Except.error "ModuleNotFoundError"

/-- Concrete import resolver modelling a deployment where the configured
class imports successfully. -/
def impOk : String → String → Except String Unit :=
  fun _ _ => Except.ok ()

/-- Builder for concrete exception values over String leaves and a
one-class universe, used to instantiate the claim theorems. -/
def mkExc (isR : Bool) (dat : ErrorTree String) (sc : Nat) (msg cd : String)
    (inst dv od ie : Bool) (sstr : String) : Exc String Unit :=
  ⟨isR, dat, sc, msg, cd, fun _ => inst, dv, od, ie, sstr⟩

/-- C3: for every finite ErrorMessageTree, `flatten_errors` returns a flat
list of strings: exactly the leaf values in depth-first left-to-right
order, each rendered by `str`; hence its length is the number of leaves.
A non-container value is a leaf contributing exactly `[str(value)]`, and
an empty sequence or empty mapping contributes zero messages. -/
theorem C3_flatten_depth_first {α : Type} (pyStr : α → String) (t : ErrorTree α) (v : α) :
    flatten_errors pyStr t = (leaves t).map pyStr ∧
    (flatten_errors pyStr t).length = (leaves t).length ∧
    flatten_errors pyStr (ErrorTree.leaf v) = [pyStr v] ∧
    flatten_errors pyStr (ErrorTree.seq []) = [] ∧
    flatten_errors pyStr (ErrorTree.map []) = [] := by
  refine ⟨?_, ?_, ?_, ?_, ?_⟩
  · simpa [flatten_errors] using extract_messages_eq_map_leaves pyStr t
  · simp [flatten_errors, extract_messages_eq_map_leaves]
  · simp [flatten_errors, extract_messages]
  · simp [flatten_errors, extract_messages]
  · simp [flatten_errors, extract_messages]

/-- C7: flattening is invariant under re-nesting: two trees with the same
leaf values in the same depth-first order (however differently nested
across sequences and mappings) flatten to equal lists. -/
theorem C7_flatten_renesting_invariant {α : Type} (pyStr : α → String)
    (t1 t2 : ErrorTree α) (h : leaves t1 = leaves t2) :
    flatten_errors pyStr t1 = flatten_errors pyStr t2 := by
  simp [flatten_errors, extract_messages_eq_map_leaves, h]

/-- C7 witness: a two-level sequence and a flat mapping carrying the same
leaves in the same order flatten to the same list. -/
theorem C7_witness :
    leaves (ErrorTree.seq [ErrorTree.leaf "x", ErrorTree.seq [ErrorTree.leaf "y"]]) =
      leaves (ErrorTree.map [("a", ErrorTree.leaf "x"), ("b", ErrorTree.leaf "y")]) ∧
    flatten_errors id (ErrorTree.seq [ErrorTree.leaf "x", ErrorTree.seq [ErrorTree.leaf "y"]]) =
      flatten_errors id (ErrorTree.map [("a", ErrorTree.leaf "x"), ("b", ErrorTree.leaf "y")]) :=
  ⟨by simp [leaves], C7_flatten_renesting_invariant id _ _ (by simp [leaves])⟩

/-- C10: the handler is total over its decision chain: for every input it
returns a response; in particular any error missed by rules 1 through 6
reaches the unclassified branch, whose guard (`if not response`) holds
whenever it is reached. -/
theorem C10_handler_total {α κ : Type} (s : Settings)
    (imp : String → String → Except String κ)
    (drf_response : Option (ErrorTree α × Nat)) (pyStr : α → String)
    (fresh_uuid trace : String) (exc : Exc α κ) :
    (custom_exception_handler s imp drf_response pyStr fresh_uuid trace exc).isSome = true := by
  cases hR : exc.isResponse with
  | true => rw [handler_rule1 s imp drf_response pyStr fresh_uuid trace exc hR]; rfl
  | false =>
    cases drf_response with
    | some p =>
      obtain ⟨dat, st⟩ := p
      rw [handler_rule2 s imp dat st pyStr fresh_uuid trace exc hR]; rfl
    | none =>
      cases hb : (get_configured_base_exception_class imp s).1 with
      | some cls =>
        cases hi : exc.instOf cls with
        | true => rw [handler_rule3 s imp pyStr fresh_uuid trace exc cls hR hb hi]; rfl
        | false =>
          exact handler_total_of_miss s imp pyStr fresh_uuid trace exc hR
            (rule3Misses_of_notInst exc hb hi)
      | none =>
        exact handler_total_of_miss s imp pyStr fresh_uuid trace exc hR
          (rule3Misses_of_none exc hb)

/-- C6: a manually returned Response (rule 1) is re-wrapped as
{status: false, message: flatten(body)} with the original status code
unchanged; the rule is tested first: the conclusion holds for arbitrary
DRF-handler results, settings and marker flags on the error. -/
theorem C6_manual_response_passthrough {α κ : Type} (s : Settings)
    (imp : String → String → Except String κ)
    (drf_response : Option (ErrorTree α × Nat)) (pyStr : α → String)
    (fresh_uuid trace : String) (exc : Exc α κ)
    (h : exc.isResponse = true) :
    custom_exception_handler s imp drf_response pyStr fresh_uuid trace exc =
      some ⟨⟨false, flatten_errors pyStr exc.data, none, none⟩, exc.status_code, []⟩ :=
  handler_rule1 s imp drf_response pyStr fresh_uuid trace exc h

/-- C6 witness: a manual Response with nested body and status 418 is
re-wrapped with its body flattened and status 418 kept, even though every
other classification flag is set and a DRF result exists. -/
theorem C6_witness :
    custom_exception_handler (⟨some "app.Base", true⟩ : Settings) impOk
        (some (ErrorTree.leaf "ignored", 400)) (id : String → String) "u" "tr"
        (mkExc true
          (ErrorTree.map [("f", ErrorTree.seq [ErrorTree.leaf "a", ErrorTree.leaf "b"])])
          418 "m" "c" true true true true "s") =
      some ⟨⟨false, ["a", "b"], none, none⟩, 418, []⟩ := by
  have h := C6_manual_response_passthrough (⟨some "app.Base", true⟩ : Settings) impOk
      (some (ErrorTree.leaf "ignored", 400)) (id : String → String) "u" "tr"
      (mkExc true
        (ErrorTree.map [("f", ErrorTree.seq [ErrorTree.leaf "a", ErrorTree.leaf "b"])])
        418 "m" "c" true true true true "s") rfl
  simpa [mkExc, flatten_errors, extract_messages] using h

/-- C5: when a base-exception class is resolved from configuration, the
error is an instance of it, and no earlier rule matched (not a manual
Response, DRF default handler returned nothing), the handler returns
exactly {status: false, message: [error.message], code: error.code} with
HTTP status error.status_code, and the log consists of exactly one
warning entry recording the message and code. -/
theorem C5_configured_base_exception {α κ : Type} (s : Settings)
    (imp : String → String → Except String κ) (pyStr : α → String)
    (fresh_uuid trace : String) (exc : Exc α κ) (cls : κ)
    (h1 : exc.isResponse = false)
    (hb : (get_configured_base_exception_class imp s).1 = some cls)
    (hi : exc.instOf cls = true) :
    custom_exception_handler s imp none pyStr fresh_uuid trace exc =
      some ⟨⟨false, [exc.message], some exc.code, none⟩, exc.status_code,
            [LogEntry.warning
              ("Project Base Exception: " ++ exc.message ++ " (Code: " ++ exc.code ++ ")")]⟩ := by
  have hres := resolution_success_no_warning imp s cls hb
  rw [handler_rule3 s imp pyStr fresh_uuid trace exc cls h1 hb hi, hres]
  simp

/-- C5 witness: with a resolvable configured class and an instance
carrying message "Invalid token", code "AUTH001" and status 401, the
payload and the single warning log entry come out exactly as claimed. -/
theorem C5_witness :
    custom_exception_handler (⟨some "app.exceptions.Base", false⟩ : Settings) impOk none
        (id : String → String) "u" "tr"
        (mkExc false (ErrorTree.seq []) 401 "Invalid token" "AUTH001" true false false false "s") =
      some ⟨⟨false, ["Invalid token"], some "AUTH001", none⟩, 401,
            [LogEntry.warning "Project Base Exception: Invalid token (Code: AUTH001)"]⟩ := by
  have h := C5_configured_base_exception (⟨some "app.exceptions.Base", false⟩ : Settings) impOk
      (id : String → String) "u" "tr"
      (mkExc false (ErrorTree.seq []) 401 "Invalid token" "AUTH001" true false false false "s")
      () rfl (by decide) rfl
  simpa [mkExc] using h

/-- C8: an object-not-found error missed by all earlier rules (not a
manual Response, no DRF default translation, rule 3 missing, not a
Django ValidationError) yields status code exactly 404 and message
exactly ["Requested object not found."]. -/
theorem C8_object_not_found {α κ : Type} (s : Settings)
    (imp : String → String → Except String κ) (pyStr : α → String)
    (fresh_uuid trace : String) (exc : Exc α κ)
    (h1 : exc.isResponse = false)
    (h3 : rule3Misses imp s exc)
    (h4 : exc.isDjangoValidationError = false)
    (h5 : exc.isObjectDoesNotExist = true) :
    ∃ r, custom_exception_handler s imp none pyStr fresh_uuid trace exc = some r ∧
      r.status_code = 404 ∧
      r.payload.message = ["Requested object not found."] ∧
      r.payload.status = false :=
  ⟨_, handler_rule5 s imp pyStr fresh_uuid trace exc h1 h3 h4 h5, rfl, rfl, rfl⟩

/-- C8 witness: a concrete missing-object error with no configured base
class produces 404 and the exact not-found message. -/
theorem C8_witness :
    (custom_exception_handler (⟨none, false⟩ : Settings) impFail none (id : String → String)
        "u" "tr" (mkExc false (ErrorTree.seq []) 0 "" "" false false true false "s")).map
      (fun r => (r.status_code, r.payload.message, r.payload.status)) =
      some (404, ["Requested object not found."], false) := by
  obtain ⟨r, hr, ha, hb, hc⟩ := C8_object_not_found (⟨none, false⟩ : Settings) impFail
    (id : String → String) "u" "tr"
    (mkExc false (ErrorTree.seq []) 0 "" "" false false true false "s")
    rfl (rule3Misses_of_none _ rfl) rfl rfl
  rw [hr]
  simp [ha, hb, hc]

/-- C1 (amended): for every error handled by rules 1 through 6 (equivalently,
the returned payload carries no error_id), the payload status is false and
the message is a flat list of strings (by construction of the embedding,
every element has type String); the message is non-empty provided that a
rule-1 body, respectively a rule-2 body, contains at least one leaf value.
The original claim is refuted by the counterexample: a manually returned
Response whose body holds no leaves is re-wrapped with an empty message. -/
theorem C1_rules_1_to_6_invariant {α κ : Type} (s : Settings)
    (imp : String → String → Except String κ)
    (drf_response : Option (ErrorTree α × Nat)) (pyStr : α → String)
    (fresh_uuid trace : String) (exc : Exc α κ) (r : HandlerResult)
    (hr : custom_exception_handler s imp drf_response pyStr fresh_uuid trace exc = some r)
    (hid : r.payload.error_id = none)
    (hne1 : exc.isResponse = true → leaves exc.data ≠ [])
    (hne2 : ∀ dat st, drf_response = some (dat, st) → leaves dat ≠ []) :
    r.payload.status = false ∧ r.payload.message ≠ [] := by
  rcases handler_cases s imp drf_response pyStr fresh_uuid trace exc r hr with
    ⟨hR, h⟩ | ⟨dat, st, hd, h⟩ | ⟨cls, hb, hi, h⟩ | h | h | h | h
  · subst h
    refine ⟨rfl, fun hm => hne1 hR ?_⟩
    have hmap : (leaves exc.data).map pyStr = [] := by
      rw [← extract_messages_eq_map_leaves]
      simpa [flatten_errors] using hm
    exact List.map_eq_nil_iff.mp hmap
  · subst h
    refine ⟨rfl, fun hm => hne2 dat st hd ?_⟩
    have hmap : (leaves dat).map pyStr = [] := by
      rw [← extract_messages_eq_map_leaves]
      simpa [flatten_errors] using hm
    exact List.map_eq_nil_iff.mp hmap
  · subst h; exact ⟨rfl, by simp⟩
  · subst h; exact ⟨rfl, by simp⟩
  · subst h; exact ⟨rfl, by simp⟩
  · subst h; exact ⟨rfl, by simp⟩
  · subst h; simp at hid

/-- C1 counterexample: a manually returned Response whose body is an empty
list is handled by rule 1 (no error_id in the payload), yet the returned
message is the empty list, refuting the claimed non-emptiness for rules
1 through 6. -/
theorem C1_counterexample :
    custom_exception_handler (⟨none, false⟩ : Settings) impFail none (id : String → String)
        "u" "tr" (mkExc true (ErrorTree.seq []) 200 "" "" false false false false "") =
      some ⟨⟨false, [], none, none⟩, 200, []⟩ := by
  have h := handler_rule1 (⟨none, false⟩ : Settings) impFail none (id : String → String)
      "u" "tr" (mkExc true (ErrorTree.seq []) 200 "" "" false false false false "") rfl
  simpa [mkExc, flatten_errors, extract_messages] using h

/-- C1 witness: a manual Response whose body is a single leaf satisfies the
amended invariant: status false and a non-empty all-string message. -/
theorem C1_witness :
    (⟨⟨false, ["bad request"], none, none⟩, 422, []⟩ : HandlerResult).payload.status = false ∧
    (⟨⟨false, ["bad request"], none, none⟩, 422, []⟩ : HandlerResult).payload.message ≠ [] :=
  C1_rules_1_to_6_invariant (⟨none, false⟩ : Settings) impFail none (id : String → String)
    "u" "tr" (mkExc true (ErrorTree.leaf "bad request") 422 "" "" false false false false "") _
    (by simp [custom_exception_handler, mkExc, flatten_errors, extract_messages]) rfl
    (fun _ => by simp [mkExc, leaves]) (fun dat st h => Option.noConfusion h)

/-- C2: whenever the handler returns a payload carrying an error_id (the
rule-7 unclassified fallback, the only branch that sets it), that
error_id is the freshly generated identifier (non-empty, as `uuid4`
strings are), the status code is 500, in DEBUG mode the diagnostic trace
text is an element of the message, and in non-DEBUG mode the message is
exactly the single generic string embedding the identifier and the whole
response is independent of the trace text, so the trace appears nowhere
in the payload. -/
theorem C2_unclassified_fallback {α κ : Type} (s : Settings)
    (imp : String → String → Except String κ)
    (drf_response : Option (ErrorTree α × Nat)) (pyStr : α → String)
    (fresh_uuid trace : String) (exc : Exc α κ) (r : HandlerResult)
    (hr : custom_exception_handler s imp drf_response pyStr fresh_uuid trace exc = some r)
    (hid : r.payload.error_id ≠ none)
    (hu : fresh_uuid ≠ "") :
    r.payload.error_id = some fresh_uuid ∧ fresh_uuid ≠ "" ∧ r.status_code = 500 ∧
    (s.DEBUG = true → trace ∈ r.payload.message) ∧
    (s.DEBUG = false →
      r.payload.message = [genericMessage fresh_uuid] ∧
      ∀ trace' : String,
        custom_exception_handler s imp drf_response pyStr fresh_uuid trace' exc = some r) := by
  rcases handler_cases s imp drf_response pyStr fresh_uuid trace exc r hr with
    ⟨hR, h⟩ | ⟨dat, st, hd, h⟩ | ⟨cls, hb, hi, h⟩ | h | h | h | h
  · subst h; simp at hid
  · subst h; simp at hid
  · subst h; simp at hid
  · subst h; simp at hid
  · subst h; simp at hid
  · subst h; simp at hid
  · subst h
    refine ⟨rfl, hu, rfl, fun hD => by simp [hD], fun hD => ⟨by simp [hD], fun trace' => ?_⟩⟩
    rw [handler_trace_independent s imp drf_response pyStr fresh_uuid trace' trace exc hD]
    exact hr

/-- C2 witness: in a non-DEBUG deployment an unclassified failure yields
error_id "uuid-1234", status 500, the single generic support message, and
the same response for a different trace text. -/
theorem C2_witness :
    custom_exception_handler (⟨none, false⟩ : Settings) impFail none (id : String → String)
        "uuid-1234" "OTHER TRACE"
        (mkExc false (ErrorTree.seq []) 0 "" "" false false false false "x") =
      custom_exception_handler (⟨none, false⟩ : Settings) impFail none (id : String → String)
        "uuid-1234" "TRACE TEXT"
        (mkExc false (ErrorTree.seq []) 0 "" "" false false false false "x") ∧
    (custom_exception_handler (⟨none, false⟩ : Settings) impFail none (id : String → String)
        "uuid-1234" "TRACE TEXT"
        (mkExc false (ErrorTree.seq []) 0 "" "" false false false false "x")).map
      (fun r => (r.payload.error_id, r.status_code, r.payload.message)) =
      some (some "uuid-1234", 500, [genericMessage "uuid-1234"]) := by
  have hhr : custom_exception_handler (⟨none, false⟩ : Settings) impFail none
      (id : String → String) "uuid-1234" "TRACE TEXT"
      (mkExc false (ErrorTree.seq []) 0 "" "" false false false false "x") =
      some ⟨⟨false, [genericMessage "uuid-1234"], none, some "uuid-1234"⟩, 500,
            [LogEntry.error "[Error ID: uuid-1234] Unhandled exception"]⟩ := by
    have h := handler_rule7 (⟨none, false⟩ : Settings) impFail (id : String → String)
        "uuid-1234" "TRACE TEXT"
        (mkExc false (ErrorTree.seq []) 0 "" "" false false false false "x")
        rfl (rule3Misses_of_none _ rfl) rfl rfl rfl
    simpa [mkExc, get_configured_base_exception_class] using h
  obtain ⟨h1, h2, h3, h4, h5⟩ := C2_unclassified_fallback (⟨none, false⟩ : Settings) impFail
    none (id : String → String) "uuid-1234" "TRACE TEXT"
    (mkExc false (ErrorTree.seq []) 0 "" "" false false false false "x") _
    hhr (by simp) (by simp)
  obtain ⟨h5a, h5b⟩ := h5 rfl
  refine ⟨?_, ?_⟩
  · rw [h5b "OTHER TRACE", hhr]
  · rw [hhr]
    simp [genericMessage]

/-- C4: resolution of the configured base-exception reference never raises
outward: `get_configured_base_exception_class` is a total function that,
for every configuration value (absent, empty, malformed dotless path,
failing import or attribute lookup, success), returns the resolved class
or none; every failing resolution attempt logs exactly one warning; and
when resolution yields none, rule 3 is absent for the request: no payload
the handler returns carries a `code` field. -/
theorem C4_resolution_never_raises {α κ : Type}
    (imp : String → String → Except String κ) (s : Settings) :
    (s.CUSTOM_BASE_EXCEPTION = none →
      get_configured_base_exception_class imp s = (none, [])) ∧
    (∀ path, s.CUSTOM_BASE_EXCEPTION = some path → path.isEmpty = true →
      get_configured_base_exception_class imp s = (none, [])) ∧
    (∀ path, rsplitDot path = none →
      resolveAttempt imp path = Except.error "ValueError: not enough values to unpack") ∧
    (∀ path e, s.CUSTOM_BASE_EXCEPTION = some path → path.isEmpty = false →
      resolveAttempt imp path = Except.error e →
      get_configured_base_exception_class imp s =
        (none,
         [LogEntry.warning
            ("Could not import CUSTOM_BASE_EXCEPTION: \"" ++ path ++ "\": " ++ e)])) ∧
    (∀ path cls, s.CUSTOM_BASE_EXCEPTION = some path → path.isEmpty = false →
      resolveAttempt imp path = Except.ok cls →
      get_configured_base_exception_class imp s = (some cls, [])) ∧
    ((get_configured_base_exception_class imp s).1 = none →
      ∀ (drf_response : Option (ErrorTree α × Nat)) (pyStr : α → String)
        (fresh_uuid trace : String) (exc : Exc α κ) (r : HandlerResult),
        custom_exception_handler s imp drf_response pyStr fresh_uuid trace exc = some r →
        r.payload.code = none) := by
  refine ⟨?_, ?_, ?_, ?_, ?_, ?_⟩
  · intro hp; simp [get_configured_base_exception_class, hp]
  · intro path hp he; simp [get_configured_base_exception_class, hp, he]
  · intro path hsplit; simp [resolveAttempt, hsplit]
  · intro path e hp he ha; simp [get_configured_base_exception_class, hp, he, ha]
  · intro path cls hp he ha; simp [get_configured_base_exception_class, hp, he, ha]
  · intro hb drf_response pyStr fresh_uuid trace exc r hr
    rcases handler_cases s imp drf_response pyStr fresh_uuid trace exc r hr with
      ⟨_, h⟩ | ⟨dat, st, _, h⟩ | ⟨cls, hcls, _, h⟩ | h | h | h | h
    · subst h; rfl
    · subst h; rfl
    · rw [hb] at hcls; exact absurd hcls (by simp)
    · subst h; rfl
    · subst h; rfl
    · subst h; rfl
    · subst h; rfl

/-- C4 witness: a configured dotless path with a failing importer resolves
to none with exactly the one warning entry, instead of raising. -/
theorem C4_witness :
    get_configured_base_exception_class impFail (⟨some "no_dot_path", false⟩ : Settings) =
      (none,
       [LogEntry.warning
          "Could not import CUSTOM_BASE_EXCEPTION: \"no_dot_path\": ValueError: not enough values to unpack"]) := by
  have h := (C4_resolution_never_raises (α := String) impFail
      (⟨some "no_dot_path", false⟩ : Settings)).2.2.2.1 "no_dot_path"
      "ValueError: not enough values to unpack" rfl (by decide) (by rfl)
  simpa using h

/-- C9: the unclassified branch uses one identifier consistently: for an
error reaching rule 7, the freshly generated identifier is at once the
payload error_id, the identifier inside the single error-severity log
entry (emitted regardless of deployment mode; every other log entry on
this path is a warning), and the token embedded in the user-facing
message: the "Error ID: " element in DEBUG mode, the generic support
string otherwise. -/
theorem C9_error_id_correlation {α κ : Type} (s : Settings)
    (imp : String → String → Except String κ) (pyStr : α → String)
    (fresh_uuid trace : String) (exc : Exc α κ) (r : HandlerResult)
    (hr : custom_exception_handler s imp none pyStr fresh_uuid trace exc = some r)
    (h1 : exc.isResponse = false)
    (h3 : rule3Misses imp s exc)
    (h4 : exc.isDjangoValidationError = false)
    (h5 : exc.isObjectDoesNotExist = false)
    (h6 : exc.isIntegrityError = false) :
    r.payload.error_id = some fresh_uuid ∧
    LogEntry.error ("[Error ID: " ++ fresh_uuid ++ "] Unhandled exception") ∈ r.logs ∧
    (∀ m, LogEntry.error m ∈ r.logs →
      m = "[Error ID: " ++ fresh_uuid ++ "] Unhandled exception") ∧
    (s.DEBUG = true → "Error ID: " ++ fresh_uuid ∈ r.payload.message) ∧
    (s.DEBUG = false → genericMessage fresh_uuid ∈ r.payload.message) := by
  rw [handler_rule7 s imp pyStr fresh_uuid trace exc h1 h3 h4 h5 h6] at hr
  injection hr with h
  subst h
  refine ⟨rfl, by simp, ?_, fun hD => by simp [hD], fun hD => by simp [hD]⟩
  intro m hm
  rcases List.mem_append.mp hm with hmem | hmem
  · obtain ⟨m', hw⟩ := resolution_logs_warnings imp s (LogEntry.error m) hmem
    exact LogEntry.noConfusion hw
  · rw [List.mem_singleton] at hmem
    exact LogEntry.error.inj hmem

/-- C9 witness: in DEBUG mode with identifier "uuid-9", the payload
error_id, the error-severity log entry and the message element all carry
the same identifier. -/
theorem C9_witness :
    (⟨⟨false, ["Error ID: uuid-9", "THE TRACE"], none, some "uuid-9"⟩, 500,
      [LogEntry.error "[Error ID: uuid-9] Unhandled exception"]⟩ : HandlerResult).payload.error_id =
        some "uuid-9" ∧
    LogEntry.error "[Error ID: uuid-9] Unhandled exception" ∈
      (⟨⟨false, ["Error ID: uuid-9", "THE TRACE"], none, some "uuid-9"⟩, 500,
        [LogEntry.error "[Error ID: uuid-9] Unhandled exception"]⟩ : HandlerResult).logs ∧
    "Error ID: uuid-9" ∈
      (⟨⟨false, ["Error ID: uuid-9", "THE TRACE"], none, some "uuid-9"⟩, 500,
        [LogEntry.error "[Error ID: uuid-9] Unhandled exception"]⟩ : HandlerResult).payload.message := by
  have hhr : custom_exception_handler (⟨none, true⟩ : Settings) impFail none (id : String → String)
      "uuid-9" "THE TRACE" (mkExc false (ErrorTree.seq []) 0 "" "" false false false false "x") =
      some ⟨⟨false, ["Error ID: uuid-9", "THE TRACE"], none, some "uuid-9"⟩, 500,
            [LogEntry.error "[Error ID: uuid-9] Unhandled exception"]⟩ := by
    have h := handler_rule7 (⟨none, true⟩ : Settings) impFail (id : String → String)
        "uuid-9" "THE TRACE" (mkExc false (ErrorTree.seq []) 0 "" "" false false false false "x")
        rfl (rule3Misses_of_none _ rfl) rfl rfl rfl
    simpa [mkExc, get_configured_base_exception_class] using h
  obtain ⟨ha, hb2, hc, hd, he⟩ := C9_error_id_correlation (⟨none, true⟩ : Settings) impFail
      (id : String → String) "uuid-9" "THE TRACE"
      (mkExc false (ErrorTree.seq []) 0 "" "" false false false false "x") _
      hhr rfl (rule3Misses_of_none _ rfl) rfl rfl rfl
  exact ⟨ha, hb2, hd rfl⟩
